import Mathlib

/-!
Shallow embedding of tools/python/xen/xend/XendDomainInfo.py, the lifecycle
controller for a single Xen domain.  Python dict entries that may be absent
or None are modelled as Option values; Python ints are Lean Int (arbitrary
precision in both); store contents and hypervisor status that a method reads
are passed as explicit arguments; methods whose observable behaviour is a
sequence of side effects are modelled as functions returning a list of
actions.  VmError is modelled as the error side of Except String.
-/

namespace XendDomainInfo

/-- Minimum time between domain restarts in seconds (MINIMUM_RESTART_TIME). -/
def MINIMUM_RESTART_TIME : Int := 20

/-- SHUTDOWN_TIMEOUT = 30. -/
def SHUTDOWN_TIMEOUT : Int := 30

/-- STATE_DOM_OK = 1. -/
def STATE_DOM_OK : Nat := 1

/-- STATE_DOM_SHUTDOWN = 2. -/
def STATE_DOM_SHUTDOWN : Nat := 2

/-- The zombie name marker (source constant ZOMBIE_\x50REFIX = "Zombie-"). -/
def zombiePfx : String := "Zombie-"

/-- shutdown_reasons lookup with default "?" (function shutdown_reason). -/
def shutdown_reason (code : Int) : String :=
  if code = 0 then "poweroff"
  else if code = 1 then "reboot"
  else if code = 2 then "suspend"
  else if code = 3 then "crash"
  else if code = 4 then "halt"
  else "?"

/-! ## validateInfo, memory section (lines 454-502)

The nested helpers discard_negatives, valid_KiB_ and valid_KiB read and
delete entries of self.info; here the four relevant inputs (memory, mem_kb,
maxmem, maxmem_kb, each an Option Int since parseConfig leaves absent
entries as None) are arguments and the computed memory_KiB / maxmem_KiB
pair is the result. -/

/-- discard_negatives(name): an entry that is set and negative is deleted. -/
def discard_negatives (v : Option Int) : Option Int :=
  match v with
  | some x => if x < 0 then none else some x
  | none => none

/-- valid_KiB_(mb_name, kb_name): after discarding negatives, prefer the KiB
entry; if both are set they must agree exactly (mb * 1024 == kb), else
VmError; a MiB entry alone is scaled by 1024; neither set gives None. -/
def valid_KiB_ (mb kb : Option Int) : Except String (Option Int) :=
  let kb := discard_negatives kb
  let mb := discard_negatives mb
  match kb with
  | some k =>
    match mb with
    | some m =>
      if m * 1024 = k then .ok (some k)
      else .error ("Inconsistent settings: " ++ toString m ++ " / " ++ toString k)
    | none => .ok (some k)
  | none =>
    match mb with
    | some m => .ok (some (m * 1024))
    | none => .ok none

/-- valid_KiB(mb_name, kb_name): as valid_KiB_ but a None or negative result
is a VmError. -/
def valid_KiB (mb kb : Option Int) : Except String Int :=
  match valid_KiB_ mb kb with
  | .error e => .error e
  | .ok none => .error "Invalid memory setting"
  | .ok (some v) => if v < 0 then .error "Invalid memory setting" else .ok v

/-- The memory part of validateInfo: memory_KiB := valid_KiB(memory, mem_kb);
maxmem_KiB := valid_KiB_(maxmem, maxmem_kb); a falsy maxmem_KiB (None or 0,
Python `not self.info[...]`) defaults to 1 << 30; finally maxmem_KiB is
clamped down to memory_KiB.  Returns (memory_KiB, maxmem_KiB). -/
def validateMemory (memory mem_kb maxmem maxmem_kb : Option Int) :
    Except String (Int × Int) :=
  match valid_KiB memory mem_kb with
  | .error e => .error e
  | .ok memory_KiB =>
    match valid_KiB_ maxmem maxmem_kb with
    | .error e => .error e
    | .ok maxmem0 =>
      let maxmem1 : Int :=
        match maxmem0 with
        | none => 1073741824
        | some v => if v = 0 then 1073741824 else v
      .ok (memory_KiB, if maxmem1 > memory_KiB then memory_KiB else maxmem1)

/-! ## validateInfo, vcpus section (lines 428-432)

defaultInfo only fills an entry that is unset; vcpus defaults to 1, and
vcpu_avail defaults to (1 << vcpus) - 1 computed from the (possibly
explicitly supplied) vcpus.  An explicitly supplied vcpu_avail is kept
unchanged.  Counts and bitmaps are nonnegative in every reachable
configuration (Python would raise on 1 << negative), so they are Nat. -/

/-- The vcpus / vcpu_avail part of validateInfo; returns the normalised
(vcpus, vcpu_avail) pair. -/
def validateVcpus (vcpus vcpu_avail : Option Nat) : Nat × Nat :=
  let v := vcpus.getD 1
  (v, vcpu_avail.getD (2 ^ v - 1))

/-! ## parseConfig, vcpus derivation (lines 254-273)

parseConfig first reads the top-level vcpus entry (a roundtripping entry),
then unconditionally overwrites result[vcpus]: when an image spec is
present, with the vcpus child of the image (sxp default 1); otherwise
with 1.  The image is modelled as Option (Option Int): presence of the
image, then presence of its vcpus child. -/

/-- The final result[vcpus] computed by parseConfig, given the top-level
vcpus config entry and the image spec. -/
def parseConfigVcpus (vcpus : Option Int) (image : Option (Option Int)) : Int :=
  match image with
  | some img => img.getD 1
  | none => 1

/-! ## check_name (lines 1012-1036)

The live-domain lookup domain_by_name is passed as a function from names to
the domain id of the holder (None when no live domain holds the name); the
domid of this instance is Option Int (None before construction). -/

/-- One character of a valid name: string.digits, the characters _-.:/+, or
string.ascii_letters (the loop of check_name). -/
def name_char_ok (c : Char) : Bool :=
  c.isDigit || ['_', '-', '.', ':', '/', '+'].contains c || c.isAlpha

/-- check_name(name): reject None and the empty string, reject any character
outside the allowed set, then consult domain_by_name; a live holder with a
different (or absent) domid is an error, the same domid is accepted. -/
def check_name (domid : Option Int) (domain_by_name : String → Option Int)
    (name : Option String) : Except String Unit :=
  match name with
  | none => .error "missing vm name"
  | some s =>
    if s = "" then .error "missing vm name"
    else if s.toList.all name_char_ok then
      match domain_by_name s with
      | none => .ok ()
      | some holder =>
        match domid with
        | none => .error "VM name already in use"
        | some d =>
          if holder ≠ d then .error "VM name used in both domains" else .ok ()
    else .error "invalid vm name"

/-- The character set named by the spec sentence: letters A-Z and a-z,
digits 0-9, and the punctuation _-.:/+ (spec wording, for comparison with
name_char_ok which is read off the source loop). -/
def specNameChar (c : Char) : Bool :=
  ('A' ≤ c && c ≤ 'Z') || ('a' ≤ c && c ≤ 'z') || ('0' ≤ c && c ≤ '9') ||
  c = '_' || c = '-' || c = '.' || c = ':' || c = '/' || c = '+'

/-! ## refreshShutdown (lines 685-781)

The observable effect of one refresh cycle is a sequence of actions; the
hypervisor status (dom_get / the xeninfo argument), the
xend/shutdown_completed marker, the dump flag, dompath, and the
xend/shutdown_start_time marker are inputs.  maybeRestart dispatch happens
after the lock is released and is modelled as the dispatchRestart action
carrying the reason. -/

/-- Hypervisor-reported domain status (the fields read by refreshShutdown). -/
structure XenStatus where
  dying : Bool
  crashed : Bool
  shutdown : Bool
  shutdown_reason : Int
deriving DecidableEq

/-- Observable actions of one refreshShutdown cycle. -/
inductive RefreshAction where
  | cleanupDomain
  | dumpCore
  | clearRestart
  | setStateShutdown
  | dispatchRestart (reason : String)
  | destroy
  | scheduleRecheck
deriving DecidableEq

/-- refreshShutdown: classify the status and act, in source order: absent or
dying domain is cleaned up; crashed dispatches crash handling unless the
completed marker is set; shutdown clears the timeout marker and acts on the
reason unless the completed marker is set; an alive domain with a pending
shutdown start time is destroyed after the timeout, else rechecked later. -/
def refreshShutdown (xeninfo : Option XenStatus) (shutdown_completed : Bool)
    (enable_dump : Bool) (dompath : Option String)
    (shutdown_start_time : Option Int) (now : Int) : List RefreshAction :=
  match xeninfo with
  | none => [.cleanupDomain]
  | some xi =>
    if xi.dying then [.cleanupDomain]
    else if xi.crashed then
      if shutdown_completed then []
      else (if enable_dump then [.dumpCore] else []) ++ [.dispatchRestart "crash"]
    else if xi.shutdown then
      if shutdown_completed then []
      else
        let reason := shutdown_reason xi.shutdown_reason
        .clearRestart ::
          (if reason = "suspend" then [.setStateShutdown]
           else if reason = "poweroff" ∨ reason = "reboot" then
             [.dispatchRestart reason]
           else [.destroy])
    else
      match dompath with
      | none => []
      | some _ =>
        match shutdown_start_time with
        | none => []
        | some sst =>
          if SHUTDOWN_TIMEOUT - now + sst < 0 then [.destroy]
          else [.scheduleRecheck]

/-! ## restart (lines 1258-1309)

Inputs: the rename flag, the xend/restart_in_progress marker, the
xend/previous_restart_time marker and the current time.  The observable
effect is again a sequence of actions.  Note the placement in the source:
inside `if rst:` the destroy() and return stand OUTSIDE the
`if timeout < MINIMUM_RESTART_TIME:` block, so they run whenever the
previous-restart-time marker exists. -/

/-- Observable actions of restart. -/
inductive RestartAction where
  | destroyVm
  | writeInProgress
  | logTooFast
  | recordRestartTime
  | preserveForRestart
  | destroyDomain
  | createNewDomain
  | unpauseNew
  | clearInProgress
deriving DecidableEq

/-- restart(rename): refuse when a restart is already in progress; else set
the in-progress marker; when a previous restart time exists, log when the
elapsed time is below MINIMUM_RESTART_TIME, then (unconditionally, per the
source indentation) destroy and return; else record the time, tear down or
rename-preserve the old domain, create and unpause the new one, and clear
the in-progress marker. -/
def restart (rename : Bool) (restart_in_progress : Bool)
    (previous_restart_time : Option Int) (now : Int) : List RestartAction :=
  if restart_in_progress then [.destroyVm]
  else
    .writeInProgress ::
      (match previous_restart_time with
       | some rst =>
         (if now - rst < MINIMUM_RESTART_TIME then [.logTooFast] else [])
           ++ [.destroyVm]
       | none =>
         .recordRestartTime ::
           (if rename then [.preserveForRestart] else [.destroyDomain])
             ++ [.createNewDomain, .unpauseNew, .clearInProgress])

/-! ## destroy / destroyDomain / cleanupDomain / cleanupVm (lines 1116-1172)

The observable state touched by teardown: the record name and state, the
image handle, the identifying dompath / domid, and flags recording the
best-effort external effects (vm subtree removed, domain subtree removed,
devices released, hypervisor destroy issued).  Every fallible step of the
source is wrapped in try/except and logged, so each step is modelled by its
success effect; the aggregate functions are total. -/

/-- Teardown-relevant state of one XendDomainInfo instance. -/
structure DomState where
  name : String
  state : Nat
  image : Bool
  dompath : Option String
  domid : Option Int
  vmRemoved : Bool
  domRemoved : Bool
  devicesReleased : Bool
  hvDestroyed : Bool
deriving DecidableEq

/-- Python str.startswith, on the character sequences of the strings. -/
def startswith (s pre : String) : Bool :=
  pre.toList.isPrefixOf s.toList

/-- cleanupDomain: release devices, destroy the image and drop the handle,
remove the domain subtree, put the zombie marker before the name unless it
is already there, and set the state to STATE_DOM_SHUTDOWN. -/
def DomState.cleanupDomain (s : DomState) : DomState :=
  let s1 := { s with devicesReleased := true, image := false, domRemoved := true }
  let s2 :=
    if startswith s1.name zombiePfx then s1
    else { s1 with name := zombiePfx ++ s1.name }
  { s2 with state := STATE_DOM_SHUTDOWN }

/-- cleanupVm: remove the vm subtree (logged on failure, never raises). -/
def DomState.cleanupVm (s : DomState) : DomState :=
  { s with vmRemoved := true }

/-- destroyDomain: issue xc.domain_destroy when a domid is set (exceptions
swallowed), then cleanupDomain. -/
def DomState.destroyDomain (s : DomState) : DomState :=
  DomState.cleanupDomain
    { s with hvDestroyed := s.hvDestroyed || s.domid.isSome }

/-- destroy: cleanupVm, then destroyDomain when dompath is set. -/
def DomState.destroy (s : DomState) : DomState :=
  let s1 := DomState.cleanupVm s
  match s1.dompath with
  | some _ => DomState.destroyDomain s1
  | none => s1

/-! ## setVCpuCount and getVCpuCount (lines 667-674)

The in-memory record mutation: setVCpuCount writes only
info[vcpu_avail] := (1 << vcpus) - 1 (the store writes mirror the record);
getVCpuCount reads info[vcpus]. -/

/-- The validated info record (the roundtripping scalar fields plus the
normalised memory pair). -/
structure VmInfo where
  name : String
  uuid : String
  ssidref : Int
  vcpus : Nat
  vcpu_avail : Nat
  memory_KiB : Int
  maxmem_KiB : Int
  on_poweroff : String
  on_reboot : String
  on_crash : String
  cpu : Option Int
  bootloader : Option String
deriving DecidableEq

/-- setVCpuCount(vcpus): info[vcpu_avail] := (1 << vcpus) - 1; nothing else
in the record changes. -/
def setVCpuCount (r : VmInfo) (vcpus : Nat) : VmInfo :=
  { r with vcpu_avail := 2 ^ vcpus - 1 }

/-- getVCpuCount: info[vcpus]. -/
def getVCpuCount (r : VmInfo) : Nat :=
  r.vcpus

/-! ## Theorems -/

/-- A value accepted by valid_KiB is nonnegative (it rejects None and
negative results). -/
lemma valid_KiB_nonneg (mb kb : Option Int) (v : Int)
    (h : valid_KiB mb kb = .ok v) : 0 ≤ v := by
  unfold valid_KiB at h
  cases h' : valid_KiB_ mb kb with
  | error e => rw [h'] at h; cases h
  | ok o =>
    rw [h'] at h
    cases o with
    | none => cases h
    | some x =>
      by_cases hx : x < 0
      · simp [hx] at h
      · simp [hx] at h
        omega

/-- Claim C2: every configuration accepted by the memory section of
validateInfo satisfies maxmem_KiB ≤ memory_KiB, and an input whose
resolved maxmem exceeds the resolved memory is not rejected for that
reason but has its maxmem_KiB clamped down to memory_KiB. -/
theorem validateMemory_maxmem_le_memory
    (memory mem_kb maxmem maxmem_kb : Option Int) (mk xk : Int)
    (h : validateMemory memory mem_kb maxmem maxmem_kb = .ok (mk, xk)) :
    xk ≤ mk ∧
      ∀ v, valid_KiB_ maxmem maxmem_kb = .ok (some v) → mk < v → xk = mk := by
  unfold validateMemory at h
  cases hv : valid_KiB memory mem_kb with
  | error e => rw [hv] at h; cases h
  | ok mk0 =>
    have hmk0 : 0 ≤ mk0 := valid_KiB_nonneg memory mem_kb mk0 hv
    cases hm : valid_KiB_ maxmem maxmem_kb with
    | error e => rw [hv, hm] at h; cases h
    | ok m0 =>
      rw [hv, hm] at h
      simp only [Except.ok.injEq, Prod.mk.injEq] at h
      obtain ⟨hmk, hxk⟩ := h
      subst hmk
      constructor
      · rw [← hxk]
        cases m0 with
        | none =>
          by_cases hc : (1073741824 : Int) > mk0
          · simp [hc]
          · simp [hc]; omega
        | some v =>
          by_cases hv0 : v = 0
          · subst hv0
            by_cases hc : (1073741824 : Int) > mk0
            · simp [hc]
            · simp [hc]; omega
          · by_cases hc : v > mk0
            · simp [hv0, hc]
            · simp [hv0, hc]; omega
      · intro v hveq hlt
        have h2 : m0 = some v := Except.ok.inj hveq
        subst h2
        rw [← hxk]
        have hv0 : v ≠ 0 := by omega
        simp [hv0, hlt]

/-- Witness for claim C2: maxmem 2 MiB against memory 1 MiB is accepted and
clamped to 1024 KiB. -/
theorem validateMemory_maxmem_le_memory_witness :
    validateMemory (some 1) none (some 2) none = .ok (1024, 1024) ∧
      (1024 : Int) ≤ 1024 :=
  ⟨by rfl,
   (validateMemory_maxmem_le_memory (some 1) none (some 2) none 1024 1024
      (by rfl)).1⟩

/-- Claim C3: when neither maxmem nor maxmem_kb is supplied,
maxmem_KiB defaults to 1 GiB (2 ^ 30 KiB) and the memory clamp is then
applied to that default; a negative pair also resolves to absent and takes
the same default. -/
theorem validateMemory_maxmem_default
    (memory mem_kb : Option Int) (mk : Int)
    (h : valid_KiB memory mem_kb = .ok mk) :
    validateMemory memory mem_kb none none =
        .ok (mk, if (1073741824 : Int) > mk then mk else 1073741824) ∧
      (∀ a b : Int, a < 0 → b < 0 →
        validateMemory memory mem_kb (some a) (some b) =
          validateMemory memory mem_kb none none) ∧
      (∀ a : Int, a < 0 →
        validateMemory memory mem_kb (some a) none =
          validateMemory memory mem_kb none none) ∧
      (∀ b : Int, b < 0 →
        validateMemory memory mem_kb none (some b) =
          validateMemory memory mem_kb none none) := by
  refine ⟨?_, ?_, ?_, ?_⟩
  · simp [validateMemory, h, Except.bind, valid_KiB_, discard_negatives]
  · intro a b ha hb
    simp [validateMemory, h, Except.bind, valid_KiB_, discard_negatives,
      ha, hb]
  · intro a ha
    simp [validateMemory, h, Except.bind, valid_KiB_, discard_negatives, ha]
  · intro b hb
    simp [validateMemory, h, Except.bind, valid_KiB_, discard_negatives, hb]

/-- Witness for claim C3: memory 2048 MiB resolves to 2097152 KiB, and the
1 GiB default for maxmem is below it, so it is kept unclamped. -/
theorem validateMemory_maxmem_default_witness :
    valid_KiB (some 2048) none = .ok 2097152 ∧
      validateMemory (some 2048) none none none =
        .ok (2097152, if (1073741824 : Int) > 2097152 then 2097152 else 1073741824) :=
  ⟨by rfl,
   (validateMemory_maxmem_default (some 2048) none 2097152 (by rfl)).1⟩

/-- Claim C4: with both the MiB and the KiB field of a memory pair present
and nonnegative, normalization succeeds exactly when MiB * 1024 equals KiB,
and raises VmError otherwise; a negative value in either field is treated
as if the field were absent. -/
theorem valid_KiB_consistency (mb kb : Int) :
    (0 ≤ mb → 0 ≤ kb → mb * 1024 = kb →
        valid_KiB_ (some mb) (some kb) = .ok (some kb)) ∧
    (0 ≤ mb → 0 ≤ kb → mb * 1024 ≠ kb →
        (valid_KiB_ (some mb) (some kb)).isOk = false) ∧
    (∀ kbo, mb < 0 → valid_KiB_ (some mb) kbo = valid_KiB_ none kbo) ∧
    (∀ mbo, kb < 0 → valid_KiB_ mbo (some kb) = valid_KiB_ mbo none) := by
  refine ⟨?_, ?_, ?_, ?_⟩
  · intro hmb hkb heq
    have hmb' : ¬ mb < 0 := by omega
    have hkb' : ¬ kb < 0 := by omega
    simp [valid_KiB_, discard_negatives, hmb', hkb', heq]
  · intro hmb hkb hne
    have hmb' : ¬ mb < 0 := by omega
    have hkb' : ¬ kb < 0 := by omega
    simp [valid_KiB_, discard_negatives, hmb', hkb', hne, Except.isOk,
      Except.toBool]
  · intro kbo hmb
    simp [valid_KiB_, discard_negatives, hmb]
  · intro mbo hkb
    simp [valid_KiB_, discard_negatives, hkb]

/-- Witness for claim C4: the inconsistent pair maxmem = 256 MiB with
maxmem_kb = 300000 KiB (256 * 1024 = 262144) is rejected. -/
theorem valid_KiB_consistency_witness :
    (0 : Int) ≤ 256 ∧ (0 : Int) ≤ 300000 ∧
      (256 * 1024 : Int) ≠ 300000 ∧
      (valid_KiB_ (some 256) (some 300000)).isOk = false :=
  ⟨by norm_num, by norm_num, by norm_num,
   (valid_KiB_consistency 256 300000).2.1 (by norm_num) (by norm_num)
     (by norm_num)⟩

/-- Claim C5 counterexample: the claimed invariant (no bit of vcpu_avail at
position ≥ vcpus) fails on the code: validation keeps an explicitly supplied
vcpu_avail = 7 with vcpus = 1 (bit 2 is set at position 2 ≥ 1), and
setVCpuCount 2 on a record with vcpus = 1 sets bit 1 while leaving
vcpus = 1. -/
theorem vcpu_avail_invariant_counterexample :
    (validateVcpus (some 1) (some 7)).1 = 1 ∧
    Nat.testBit (validateVcpus (some 1) (some 7)).2 2 = true ∧
    2 ≥ (validateVcpus (some 1) (some 7)).1 ∧
    (setVCpuCount ⟨"vm1", "uuid1", 0, 1, 1, 262144, 262144, "destroy",
        "restart", "restart", none, none⟩ 2).vcpus = 1 ∧
    Nat.testBit (setVCpuCount ⟨"vm1", "uuid1", 0, 1, 1, 262144, 262144,
        "destroy", "restart", "restart", none, none⟩ 2).vcpu_avail 1 = true := by
  decide

/-- Claim C5 (amended): the invariant holds for the defaulted bitmap: when
vcpu_avail is not supplied, validation computes (1 << vcpus) - 1, which has
no bit set at position ≥ vcpus; an explicitly supplied bitmap is kept
unchecked, and setVCpuCount n yields a bitmap with no bit set at
position ≥ n (the vcpus field itself being left unchanged). -/
theorem vcpu_avail_default_within_count :
    (∀ (vcpus : Option Nat) (i : Nat),
        Nat.testBit (validateVcpus vcpus none).2 i = true →
          i < (validateVcpus vcpus none).1) ∧
    (∀ (r : VmInfo) (n i : Nat),
        Nat.testBit (setVCpuCount r n).vcpu_avail i = true → i < n) := by
  constructor
  · intro vcpus i h
    simp only [validateVcpus, Option.getD_none] at h ⊢
    rw [Nat.testBit_two_pow_sub_one] at h
    exact of_decide_eq_true h
  · intro r n i h
    simp only [setVCpuCount] at h
    rw [Nat.testBit_two_pow_sub_one] at h
    exact of_decide_eq_true h

/-- Witness for the amended claim C5: with vcpus = 3 and no supplied bitmap
the default is 7; bit 1 is set and 1 < 3. -/
theorem vcpu_avail_default_within_count_witness :
    Nat.testBit (validateVcpus (some 3) none).2 1 = true ∧
      1 < (validateVcpus (some 3) none).1 :=
  ⟨by decide, vcpu_avail_default_within_count.1 (some 3) 1 (by decide)⟩

/-- Claim C10: setVCpuCount n sets vcpu_avail to (1 << n) - 1 and modifies
no other field of the record; in particular getVCpuCount is unchanged. -/
theorem setVCpuCount_avail_frame (r : VmInfo) (n : Nat) :
    (setVCpuCount r n).vcpu_avail = (1 <<< n) - 1 ∧
    getVCpuCount (setVCpuCount r n) = getVCpuCount r ∧
    (setVCpuCount r n).vcpus = r.vcpus ∧
    (setVCpuCount r n).name = r.name ∧
    (setVCpuCount r n).uuid = r.uuid ∧
    (setVCpuCount r n).ssidref = r.ssidref ∧
    (setVCpuCount r n).memory_KiB = r.memory_KiB ∧
    (setVCpuCount r n).maxmem_KiB = r.maxmem_KiB ∧
    (setVCpuCount r n).on_poweroff = r.on_poweroff ∧
    (setVCpuCount r n).on_reboot = r.on_reboot ∧
    (setVCpuCount r n).on_crash = r.on_crash ∧
    (setVCpuCount r n).cpu = r.cpu ∧
    (setVCpuCount r n).bootloader = r.bootloader := by
  simp [setVCpuCount, getVCpuCount, Nat.one_shiftLeft]

/-- Claim C6 counterexample: a top-level vcpus = 4 is not preserved by
parseConfig: without an image the result is 1, and with an image carrying
vcpus = 2 the result is 2; the image-derived value overwrites the top-level
one in every case. -/
theorem parseConfig_vcpus_overwritten :
    parseConfigVcpus (some 4) none = 1 ∧
    parseConfigVcpus (some 4) none ≠ 4 ∧
    parseConfigVcpus (some 4) (some (some 2)) = 2 ∧
    parseConfigVcpus (some 4) (some none) = 1 := by
  decide

/-- Claim C6 (amended): parseConfig always derives the final vcpus from the
boot image spec, overwriting any top-level value: with an image it takes
the vcpus child of the image (default 1 when the child is absent), and
without an image it sets 1. -/
theorem parseConfig_vcpus_from_image (vcpus : Option Int) (n : Int) :
    parseConfigVcpus vcpus (some (some n)) = n ∧
    parseConfigVcpus vcpus (some none) = 1 ∧
    parseConfigVcpus vcpus none = 1 := by
  simp [parseConfigVcpus]

/-- Witness for the amended claim C6: concrete evaluations of the three
image cases with a top-level vcpus of 4. -/
theorem parseConfig_vcpus_from_image_witness :
    parseConfigVcpus (some 4) (some (some 2)) = 2 ∧
    parseConfigVcpus (some 4) (some none) = 1 ∧
    parseConfigVcpus (some 4) none = 1 :=
  parseConfig_vcpus_from_image (some 4) 2

/-- Witness for claim C10: applied to a concrete record with 2 vcpus. -/
theorem setVCpuCount_avail_frame_witness :
    (setVCpuCount ⟨"vm2", "uuid2", 0, 2, 3, 524288, 524288, "destroy",
        "restart", "restart", none, none⟩ 2).vcpu_avail = (1 <<< 2) - 1 :=
  (setVCpuCount_avail_frame ⟨"vm2", "uuid2", 0, 2, 3, 524288, 524288,
      "destroy", "restart", "restart", none, none⟩ 2).1

/-- The loop of check_name and the character class written in the spec
accept exactly the same characters. -/
lemma name_char_ok_eq_spec (c : Char) : name_char_ok c = specNameChar c := by
  rw [Bool.eq_iff_iff]
  simp [name_char_ok, specNameChar, Char.isDigit, Char.isAlpha,
    Char.isUpper, Char.isLower]
  tauto

/-- Bridging lemma: the all-characters check of the source equals the
spec-side character condition. -/
lemma all_name_char_iff (s : String) :
    (s.toList.all name_char_ok = true) ↔ ∀ c ∈ s.toList, specNameChar c = true := by
  simp [List.all_eq_true, name_char_ok_eq_spec]

/-- Claim C8: check_name accepts exactly the non-empty strings whose every
character is a letter, a digit, or one of the characters _-.:/+, provided no
other live domain holds the name: None and the empty string are rejected,
any other character is rejected, and a name whose live holder has the same
domain id as this instance revalidates without error. -/
theorem check_name_accepts_charset (domid : Option Int)
    (domain_by_name : String → Option Int) (name : Option String) :
    check_name domid domain_by_name name = .ok () ↔
      ∃ s, name = some s ∧ s ≠ "" ∧ (∀ c ∈ s.toList, specNameChar c = true) ∧
        ∀ holder, domain_by_name s = some holder → domid = some holder := by
  cases name with
  | none => simp [check_name]
  | some s =>
    by_cases hs : s = ""
    · subst hs
      simp [check_name]
    · by_cases hall : s.toList.all name_char_ok = true
      · have hall' : ∀ c ∈ s.toList, specNameChar c = true :=
          (all_name_char_iff s).mp hall
        have hred : check_name domid domain_by_name (some s) =
            (match domain_by_name s with
             | none => Except.ok ()
             | some holder =>
               match domid with
               | none => Except.error "VM name already in use"
               | some d =>
                 if holder ≠ d then Except.error "VM name used in both domains"
                 else Except.ok ()) := by
          simp only [check_name]
          rw [if_neg hs, hall]
          simp
        rw [hred]
        cases hd : domain_by_name s with
        | none =>
          simp only [hd, Option.some.injEq]
          constructor
          · intro _
            exact ⟨s, rfl, hs, hall', by intro holder hh; rw [hd] at hh; cases hh⟩
          · intro _
            trivial
        | some holder =>
          cases domid with
          | none =>
            simp only [hd]
            constructor
            · intro h
              cases h
            · rintro ⟨s', hss, -, -, hhold⟩
              injection hss with hss
              subst hss
              exact absurd (hhold holder hd) (by simp)
          | some d =>
            by_cases hhd : holder = d
            · subst hhd
              simp only [hd]
              rw [if_neg (fun h : holder ≠ holder => h rfl)]
              constructor
              · intro _
                refine ⟨s, rfl, hs, hall', ?_⟩
                intro h' hh'
                rw [hd] at hh'
                injection hh' with hh'
                rw [hh']
              · intro _
                simp
            · simp only [hd, if_pos (by exact hhd : holder ≠ d)]
              constructor
              · intro h
                cases h
              · rintro ⟨s', hss, -, -, hhold⟩
                injection hss with hss
                subst hss
                have := hhold holder hd
                injection this with this
                exact absurd this.symm hhd
      · have hfalse : s.toList.all name_char_ok = false :=
          Bool.not_eq_true _ ▸ Bool.of_not_eq_true hall
        have hred : check_name domid domain_by_name (some s) =
            Except.error "invalid vm name" := by
          simp only [check_name]
          rw [if_neg hs, hfalse]
          simp
        rw [hred]
        constructor
        · intro h
          cases h
        · rintro ⟨s', hss, -, hchar, -⟩
          injection hss with hss
          subst hss
          exact absurd ((all_name_char_iff s).mpr hchar) hall

/-- Witness for claim C8: a name using every allowed character class is
accepted when no live domain holds it. -/
theorem check_name_accepts_charset_witness :
    check_name (some 3) (fun _ => none) (some "vm-0/test.+:2") = .ok () :=
  (check_name_accepts_charset (some 3) (fun _ => none)
      (some "vm-0/test.+:2")).mpr
    ⟨"vm-0/test.+:2", rfl, by decide, by decide,
     by intro holder hh; cases hh⟩

/-- Claim C7: on a hypervisor shutdown status that is neither dying nor
crashed, refreshShutdown returns without action when the completed marker is
present; otherwise it first clears the shutdown-timeout marker, then for
reason suspend only sets the local state to SHUTDOWN, for poweroff and
reboot dispatches to the restart policy engine with that reason, and for
every other reason destroys the domain directly. -/
theorem refreshShutdown_shutdown_dispatch
    (xi : XenStatus) (completed enable_dump : Bool) (dompath : Option String)
    (sst : Option Int) (now : Int)
    (hd : xi.dying = false) (hc : xi.crashed = false)
    (hs : xi.shutdown = true) :
    (completed = true →
        refreshShutdown (some xi) completed enable_dump dompath sst now = []) ∧
    (completed = false →
      (shutdown_reason xi.shutdown_reason = "suspend" →
          refreshShutdown (some xi) completed enable_dump dompath sst now =
            [.clearRestart, .setStateShutdown]) ∧
      ((shutdown_reason xi.shutdown_reason = "poweroff" ∨
        shutdown_reason xi.shutdown_reason = "reboot") →
          refreshShutdown (some xi) completed enable_dump dompath sst now =
            [.clearRestart,
             .dispatchRestart (shutdown_reason xi.shutdown_reason)]) ∧
      (shutdown_reason xi.shutdown_reason ≠ "suspend" →
       shutdown_reason xi.shutdown_reason ≠ "poweroff" →
       shutdown_reason xi.shutdown_reason ≠ "reboot" →
          refreshShutdown (some xi) completed enable_dump dompath sst now =
            [.clearRestart, .destroy])) := by
  constructor
  · intro hcomp
    subst hcomp
    simp [refreshShutdown, hd, hc, hs]
  · intro hcomp
    subst hcomp
    refine ⟨?_, ?_, ?_⟩
    · intro hr
      simp [refreshShutdown, hd, hc, hs, hr]
    · intro hr
      rcases hr with hr | hr <;> simp [refreshShutdown, hd, hc, hs, hr]
    · intro h1 h2 h3
      simp [refreshShutdown, hd, hc, hs, h1, h2, h3]

/-- Witness for claim C7: reason code 2 (suspend) with the completed marker
absent clears the timeout marker and sets the state only. -/
theorem refreshShutdown_shutdown_dispatch_witness :
    refreshShutdown (some ⟨false, false, true, 2⟩) false false none none 0 =
      [.clearRestart, .setStateShutdown] :=
  ((refreshShutdown_shutdown_dispatch ⟨false, false, true, 2⟩ false false
      none none 0 rfl rfl rfl).2 rfl).1 rfl

/-- Claim C1 is contradicted by the code: at the failing input (no restart
in progress, previous-restart-time marker = 0, now = 100, so the elapsed
time 100 is well above MINIMUM_RESTART_TIME = 20) restart still destroys the
domain and never records the new time nor creates and resumes a new domain,
because the destroy and return of the too-fast branch sit outside the
elapsed-time test in the source. -/
theorem restart_destroys_despite_slow_elapsed :
    restart false false (some 0) 100 = [.writeInProgress, .destroyVm] ∧
    RestartAction.createNewDomain ∉ restart false false (some 0) 100 ∧
    RestartAction.recordRestartTime ∉ restart false false (some 0) 100 ∧
    RestartAction.unpauseNew ∉ restart false false (some 0) 100 ∧
    100 - 0 ≥ MINIMUM_RESTART_TIME := by
  decide

/-- The zombie marker put before a name is seen by startswith. -/
lemma startswith_zombie_append (n : String) :
    startswith (zombiePfx ++ n) zombiePfx = true := by
  rw [startswith, List.isPrefixOf_iff_prefix]
  rw [show (zombiePfx ++ n).toList = zombiePfx.toList ++ n.toList from
    String.data_append zombiePfx n]
  exact List.prefix_append _ _

/-- cleanupDomain applied twice changes nothing more: all flag updates are
idempotent and the name, once marked, is left alone. -/
lemma cleanupDomain_idem (t : DomState) :
    DomState.cleanupDomain (DomState.cleanupDomain t) =
      DomState.cleanupDomain t := by
  unfold DomState.cleanupDomain
  by_cases h : startswith t.name zombiePfx = true
  · simp [h]
  · simp only [Bool.not_eq_true] at h
    simp [h, startswith_zombie_append]

/-- Claim C9: destroy is idempotent: a second destroy on the same instance
reproduces the end state of the first with no error; cleanupDomain marks the
name as zombie only when it is not already marked, so repeated teardown
never stacks the marker, and cleanupDomain always leaves the state at
STATE_DOM_SHUTDOWN. -/
theorem destroy_idempotent (s : DomState) :
    DomState.destroy (DomState.destroy s) = DomState.destroy s ∧
    (DomState.cleanupDomain (DomState.cleanupDomain s)).name =
      (DomState.cleanupDomain s).name ∧
    (DomState.cleanupDomain s).state = STATE_DOM_SHUTDOWN := by
  refine ⟨?_, by rw [cleanupDomain_idem], by simp [DomState.cleanupDomain]⟩
  obtain ⟨name, state, image, dompath, domid, vm, dom, dev, hv⟩ := s
  cases dompath with
  | none =>
    simp [DomState.destroy, DomState.cleanupVm]
  | some p =>
    by_cases h : startswith name zombiePfx = true
    · simp [DomState.destroy, DomState.cleanupVm, DomState.destroyDomain,
        DomState.cleanupDomain, h, Bool.or_assoc, Bool.or_self]
    · simp only [Bool.not_eq_true] at h
      simp [DomState.destroy, DomState.cleanupVm, DomState.destroyDomain,
        DomState.cleanupDomain, h, startswith_zombie_append, Bool.or_assoc,
        Bool.or_self]

/-- Witness for claim C9: applied to a concrete live instance. -/
theorem destroy_idempotent_witness :
    DomState.destroy (DomState.destroy ⟨"d1", 1, true, some "/local/domain/5",
        some 5, false, false, false, false⟩) =
      DomState.destroy ⟨"d1", 1, true, some "/local/domain/5", some 5, false,
        false, false, false⟩ ∧
    (DomState.cleanupDomain (DomState.cleanupDomain ⟨"d1", 1, true,
        some "/local/domain/5", some 5, false, false, false, false⟩)).name =
      (DomState.cleanupDomain ⟨"d1", 1, true, some "/local/domain/5", some 5,
        false, false, false, false⟩).name ∧
    (DomState.cleanupDomain ⟨"d1", 1, true, some "/local/domain/5", some 5,
        false, false, false, false⟩).state = STATE_DOM_SHUTDOWN :=
  destroy_idempotent ⟨"d1", 1, true, some "/local/domain/5", some 5, false,
    false, false, false⟩

end XendDomainInfo
